import Mathlib

/-
Verification of scripts/ha_test_harness.py (Energy Backfill test harness).

The harness is a single-file Python CLI that translates subcommands into
HTTP calls against a Home Assistant style REST API.  We embed it shallowly:
an invocation of a subcommand is a pure function from the resolved
configuration (the argparse result) and an environment (the wall clock and
the datetime library) to a trace of issued HTTP calls together with a final
outcome (normal return, RuntimeError caught by main and turned into exit
code 1, sys.exit with an explicit code, or an uncaught exception).
-/

namespace HaHarness

/-- The JSON payload shapes that the harness ever sends.  Each constructor
mirrors one literal dict built in the source (`scripts/ha_test_harness.py`):
`stateOnly` is the `_set_state` body `\x7b"state": str(v)\x7d` (the
`attributes` branch is never taken by any caller, all call sites leave it
`None`); `numValue`/`strValue` are the `set_value` bodies of `input_number`
and `input_text`; `optValue` is the `input_select.select_option` body;
`entityOnly` is the `input_boolean.turn_on/turn_off` body; `tstamp` is the
`input_datetime.set_datetime` body `\x7b"entity_id": e, "timestamp": t\x7d`. -/
inductive Payload where
  | stateOnly (state : String)
  | numValue (entity : String) (value : ℚ)
  | strValue (entity : String) (value : String)
  | optValue (entity : String) (opt : String)
  | entityOnly (entity : String)
  | tstamp (entity : String) (timestamp : Int)
  deriving DecidableEq, Repr

/-- One issued HTTP request: the method, the path passed to `_request`
(the full URL is the stripped base url ++ path, see `request_url`), and the
optional JSON payload. -/
structure Call where
  method : String
  path : String
  payload : Option Payload
  deriving DecidableEq, Repr

/-- The final outcome of running (part of) a subcommand:
`ok` is a normal return; `err` is a `RuntimeError` (caught in `main`, which
prints the message to stderr and calls `sys.exit(1)`); `exitWith` is a
direct `sys.exit(code)` (done by `_require` with code 2 after printing the
message); `crash` is an uncaught exception such as the `ValueError` raised
by `float()` on a non-numeric string (the interpreter terminates with
status 1). -/
inductive Outcome (α : Type) where
  | ok (a : α)
  | err (msg : String)
  | exitWith (code : Nat) (msg : String)
  | crash (msg : String)
  deriving DecidableEq, Repr

/-- A computation of the harness: the list of HTTP calls it issued, in
order, together with its outcome. -/
def Eff (α : Type) : Type := List Call × Outcome α

/-- Sequencing of harness computations: calls accumulate in order; an
error, exit or crash stops the sequence (exceptions propagate, `sys.exit`
terminates the process). -/
def Eff.bind {α β : Type} (x : Eff α) (f : α → Eff β) : Eff β :=
  match x with
  | (cs, Outcome.ok a) =>
      let r := f a
      (cs ++ r.1, r.2)
  | (cs, Outcome.err m) => (cs, Outcome.err m)
  | (cs, Outcome.exitWith c m) => (cs, Outcome.exitWith c m)
  | (cs, Outcome.crash m) => (cs, Outcome.crash m)

/-- A computation that issues no call and returns `a`. -/
def Eff.pure {α : Type} (a : α) : Eff α := ([], Outcome.ok a)

/-- The calls issued by a computation. -/
def calls_of {α : Type} (x : Eff α) : List Call := x.1

/-- The outcome of a computation. -/
def outcome_of {α : Type} (x : Eff α) : Outcome α := x.2

/-- The process exit status implied by an outcome: `main` returns normally
(status 0) on `ok`, catches `RuntimeError` and exits 1, `sys.exit(c)`
gives `c`, and an uncaught exception makes the interpreter exit 1. -/
def exit_code {α : Type} (x : Eff α) : Nat :=
  match x.2 with
  | Outcome.ok _ => 0
  | Outcome.err _ => 1
  | Outcome.exitWith c _ => c
  | Outcome.crash _ => 1

/-- The resolved argparse namespace after `main` has defaulted
`energy_write_entity` to `energy_sensor` (source lines 372-373).
`base_url` and `token` are `Option String` because their argparse default
is `os.environ.get(...)` with no fallback, hence possibly `None`; every
other option has a hardcoded default and is always a string. -/
structure Args where
  base_url : Option String
  token : Option String
  energy_sensor : String
  energy_write_entity : String
  status_entity : String
  lifetime_helper : String
  cycle_start_helper : String
  daily_active_helper : String
  durations_helper : String
  last_processed_helper : String
  active_state : String
  inactive_state : String

/-- The defaulting of `energy_write_entity` performed in `main`
(lines 372-373): `if not args.energy_write_entity: args.energy_write_entity
= args.energy_sensor`.  Python truthiness: both `None` and the empty
string fall back to the sensor. -/
def resolve_energy_write_entity (raw : Option String) (sensor : String) : String :=
  match raw with
  | none => sensor
  | some s => if s.isEmpty then sensor else s

/-- Python truthiness test used by `_require` (`if value:`) on an optional
string: `None` and `""` are falsy. -/
def falsy : Option String → Bool
  | none => true
  | some s => s.isEmpty

/-- Both required configuration values are present (non-`None`,
non-empty): `_require` succeeds for the base url and the token. -/
def cfg_present (a : Args) : Bool :=
  !(falsy a.base_url) && !(falsy a.token)

/-- Embedding of `_require(value, label)` (lines 44-48): return the value
if truthy, otherwise print `Missing required value: <label>` to stderr and
`sys.exit(2)`. -/
def require_value (v : Option String) (label : String) : Eff String :=
  match v with
  | none => ([], Outcome.exitWith 2 ("Missing required value: " ++ label))
  | some s =>
      if s.isEmpty then ([], Outcome.exitWith 2 ("Missing required value: " ++ label))
      else ([], Outcome.ok s)

/-- Embedding of the trailing-slash strip `base.rstrip("/")` applied to
the base url in `_request` (line 60): remove every trailing `/`. -/
def rstrip_slash (s : String) : String :=
  String.mk ((s.data.reverse.dropWhile (fun c => c == '/')).reverse)

/-- Embedding of the URL construction in `_request` (line 60):
`url = _base_url(args).rstrip("/") + path`. -/
def request_url (base path : String) : String :=
  rstrip_slash base ++ path

/-- Trace-level embedding of `_request` (lines 59-75): `_base_url` may
`sys.exit(2)`, then `_token` may `sys.exit(2)`, and only then is the HTTP
request actually issued (`urlopen`).  The response value is not used by
any caller except `dump` (which only prints it), so the trace semantics
records the issued call and returns; the response/body handling of
`_request` is modelled separately by `request_outcome`. -/
def request_eff (a : Args) (method path : String) (payload : Option Payload) : Eff Unit :=
  Eff.bind (require_value a.base_url "HA_BASE_URL or --base-url") fun _b =>
  Eff.bind (require_value a.token "HA_TOKEN or --token") fun _t =>
  ([Call.mk method path payload], Outcome.ok ())

/-- The three ways `urlopen` can come back in `_request` (lines 65-75): a
2xx response with a body, an `HTTPError` with a status code and a decoded
detail body, or a `URLError` with a reason. -/
inductive HttpResp where
  | success (body : String)
  | httpError (code : Nat) (detail : String)
  | urlError (reason : String)

/-- Response handling of `_request` (lines 65-75), parameterised by the
JSON decoder (`json.loads`, an external library): an empty successful body
returns `None` without decoding; a non-empty body is decoded; an
`HTTPError` or `URLError` is re-raised as a `RuntimeError` with the
method, path and detail in the message. -/
def request_outcome {J : Type} (decode : String → Except String J)
    (method path : String) (resp : HttpResp) : Except String (Option J) :=
  match resp with
  | HttpResp.success body =>
      if body.isEmpty then Except.ok none
      else (decode body).map Option.some
  | HttpResp.httpError code detail =>
      Except.error (method ++ " " ++ path ++ " failed: " ++ toString code ++ " " ++ detail)
  | HttpResp.urlError reason =>
      Except.error (method ++ " " ++ path ++ " failed: " ++ reason)

/-- A Python value flowing into `_set_by_domain` / `_set_state`: at every
call site of the source it is an `int` (the literal `0` that
`cmd_scenario` passes to `_init_helpers`, and the un-applied argparse
default `0` of `init`), a `float` (the `type=float` result of a supplied
CLI flag), or a string (the configured active/inactive state labels).
The `int`/`float` distinction is observable through `str`:
`str(0) = "0"` but `str(0.0) = "0.0"`.  Rationals stand in for float
values; none of the claims depends on binary floating point rounding, and
every numeric value the harness sends is a CLI literal. -/
inductive PyVal where
  | int (z : Int)
  | float (q : ℚ)
  | str (s : String)
  deriving DecidableEq, Repr

/-- Value of a digit string, most significant first. -/
def digits_to_nat (l : List Char) : Nat :=
  l.foldl (fun n c => 10 * n + (c.toNat - 48)) 0

/-- Modelling of the Python builtin `float(s)` on strings: an optional
sign followed by decimal digits with an optional fractional part, with at
least one digit; anything else raises `ValueError`.  (Python additionally
accepts surrounding whitespace, exponents, underscores and inf/nan
spellings; the harness only ever reaches the string case with configured
state labels, and no claim depends on those extra spellings.) -/
def py_float_of_string (s : String) : Option ℚ :=
  let signed : ℚ × List Char :=
    match s.data with
    | '+' :: r => (1, r)
    | '-' :: r => (-1, r)
    | r => (1, r)
  let intPart := signed.2.takeWhile Char.isDigit
  let rest := signed.2.dropWhile Char.isDigit
  match rest with
  | [] =>
      if intPart.isEmpty then none
      else some (signed.1 * (digits_to_nat intPart : ℚ))
  | '.' :: frac =>
      if frac.all Char.isDigit && !(intPart.isEmpty && frac.isEmpty) then
        some (signed.1 *
          ((digits_to_nat intPart : ℚ) + (digits_to_nat frac : ℚ) / ((10 : ℚ) ^ frac.length)))
      else none
  | _ => none

/-- The Python builtin `float(v)` as used in `_set_by_domain` (line 119):
exact conversion on an `int`, identity on a `float`, string parsing on
strings; `none` is a raised `ValueError`. -/
def py_float : PyVal → Option ℚ
  | PyVal.int z => some (z : ℚ)
  | PyVal.float q => some q
  | PyVal.str s => py_float_of_string s

/-- Rendering of a Python `float` by the builtin `str`: an integral value
prints with a trailing `.0` (e.g. `str(0.0) = "0.0"`, `str(750.0) =
"750.0"`; note this differs from `str` of the `int` `0`, which is `"0"`
and is rendered by the `PyVal.int` branch of `py_str`, not here).  The
non-integral rendering is a stand-in; every claim only compares a written
state against this same function, and the concrete traces in the claims
use integral values only. -/
def float_repr (q : ℚ) : String :=
  if q.den = 1 then toString q.num ++ ".0"
  else toString q.num ++ "/" ++ toString q.den

/-- The Python builtin `str(v)` as used by `_set_state` (line 87) and the
text/select/boolean branches of `_set_by_domain` (lines 121-125): an
`int` prints as its decimal digits (`str(0) = "0"`), a `float` with the
float rendering (`str(0.0) = "0.0"`). -/
def py_str : PyVal → String
  | PyVal.int z => toString z
  | PyVal.float q => float_repr q
  | PyVal.str s => s

/-- Embedding of `_domain` (lines 78-79): `entity_id.split(".", 1)[0]`,
the prefix before the first dot (the whole string when there is none). -/
def take_until_dot : List Char → List Char
  | [] => []
  | c :: cs => if c = '.' then [] else c :: take_until_dot cs

/-- The domain prefix of an entity id. -/
def domain_of (s : String) : String :=
  String.mk (take_until_dot s.data)

/-- Embedding of `_call_service` (lines 82-83): a POST to
`/api/services/<domain>/<service>` with the service data as body. -/
def call_service (a : Args) (domain service : String) (data : Payload) : Eff Unit :=
  request_eff a "POST" ("/api/services/" ++ domain ++ "/" ++ service) (some data)

/-- Embedding of `_set_state` (lines 86-90) as called by the harness
(every call site leaves `attributes` at its `None` default, so the body is
always just the stringified state): a POST to `/api/states/<entity_id>`. -/
def set_state (a : Args) (entity : String) (v : PyVal) : Eff Unit :=
  request_eff a "POST" ("/api/states/" ++ entity) (some (Payload.stateOnly (py_str v)))

/-- Embedding of `_set_input_number` (lines 93-96). -/
def set_input_number (a : Args) (entity : String) (value : ℚ) : Eff Unit :=
  call_service a "input_number" "set_value" (Payload.numValue entity value)

/-- Embedding of `_set_input_text` (lines 99-102). -/
def set_input_text (a : Args) (entity : String) (value : String) : Eff Unit :=
  call_service a "input_text" "set_value" (Payload.strValue entity value)

/-- Embedding of `_set_input_select` (lines 105-108). -/
def set_input_select (a : Args) (entity : String) (value : String) : Eff Unit :=
  call_service a "input_select" "select_option" (Payload.optValue entity value)

/-- Embedding of `_set_input_boolean` (lines 111-113): the service is
`turn_on` when the lowercased value is one of `on`, `true`, `1`, else
`turn_off`; the data carries only the entity id. -/
def set_input_boolean (a : Args) (entity : String) (value : String) : Eff Unit :=
  call_service a "input_boolean"
    (if value.toLower = "on" || value.toLower = "true" || value.toLower = "1"
      then "turn_on" else "turn_off")
    (Payload.entityOnly entity)

/-- Embedding of `_set_by_domain` (lines 116-126): dispatch on the domain
prefix.  In the `input_number` branch, `float(value)` is evaluated before
the service helper is called, so a non-numeric string raises `ValueError`
(an uncaught crash) before any HTTP call. -/
def set_by_domain (a : Args) (entity : String) (v : PyVal) : Eff Unit :=
  let d := domain_of entity
  if d = "input_number" then
    match py_float v with
    | some q => set_input_number a entity q
    | none => ([], Outcome.crash ("could not convert string to float: " ++ py_str v))
  else if d = "input_text" then set_input_text a entity (py_str v)
  else if d = "input_select" then set_input_select a entity (py_str v)
  else if d = "input_boolean" then set_input_boolean a entity (py_str v)
  else set_state a entity v

/-- Number of microseconds in one minute times ten: `timedelta(minutes=10)`. -/
def ten_minutes_usec : Int := 600000000

/-- Number of microseconds in one day. -/
def day_usec : Int := 86400000000

/-- The external time/datetime collaborators of one invocation.  A naive
local `datetime` is represented by its microsecond count on the local
wall-clock timeline (microseconds since local midnight of day zero), so
`timedelta` subtraction is integer subtraction and
`replace(hour=0, minute=0, second=0, microsecond=0)` is flooring to a
multiple of a day.  `now` is the value of `datetime.now()`; `toEpoch` is
`int(dt.timestamp())` (the local-time to epoch-seconds conversion done by
the standard library, including the truncation by `int`); `parseIso` is
`datetime.fromisoformat`, with `none` for a raised `ValueError`. -/
structure Env where
  now : Int
  toEpoch : Int → Int
  parseIso : String → Option Int

/-- Embedding of `_local_midnight` (lines 140-141): zero out the
time-of-day fields, i.e. floor to the start of the local day. -/
def local_midnight (t : Int) : Int :=
  t - t.emod day_usec

/-- Embedding of `_parse_start_iso` (lines 133-137): a `ValueError` from
`fromisoformat` is re-raised as a `RuntimeError` naming the value. -/
def parse_start_iso (env : Env) (value : String) : Eff Int :=
  match env.parseIso value with
  | some dt => Eff.pure dt
  | none => ([], Outcome.err ("Invalid --start-iso value: " ++ value))

/-- Embedding of `_init_helpers` (lines 148-161): reset the two numeric
helpers to 0, the durations text helper to `"[]"`, the last-processed
text helper to `""`, the cycle-start datetime helper to epoch timestamp 0,
write the inactive state to the status entity through the domain dispatch,
and finally, when `energy_wh` is not `None`, write it (the Python value
as received, `int` or `float`) to the energy write target through the
domain dispatch. -/
def init_helpers (a : Args) (energy_wh : Option PyVal) : Eff Unit :=
  Eff.bind (set_input_number a a.lifetime_helper 0) fun _ =>
  Eff.bind (set_input_number a a.daily_active_helper 0) fun _ =>
  Eff.bind (set_input_text a a.durations_helper "[]") fun _ =>
  Eff.bind (set_input_text a a.last_processed_helper "") fun _ =>
  Eff.bind (call_service a "input_datetime" "set_datetime"
      (Payload.tstamp a.cycle_start_helper 0)) fun _ =>
  Eff.bind (set_by_domain a a.status_entity (PyVal.str a.inactive_state)) fun _ =>
  match energy_wh with
  | some e => set_by_domain a a.energy_write_entity e
  | none => Eff.pure ()

/-- The value argparse stores in `args.energy_wh` for `init` (line 314,
`type=float, default=0`): argparse applies `type` only to strings, so the
non-string default `0` is kept as the `int` `0` when the flag is absent,
while a supplied flag string is converted to a `float`.  The two are
observably different downstream: `str(0) = "0"` but `str(0.0) = "0.0"`. -/
def init_energy_value : Option ℚ → PyVal
  | none => PyVal.int 0
  | some q => PyVal.float q

/-- Embedding of `cmd_init` (lines 164-166) together with the argparse
declaration of its `--energy-wh` flag (line 314): `energy_flag` is the
value supplied on the command line; `args.energy_wh` is never `None`
(the default is `0`), so `_init_helpers` always receives an energy
value — the `int` `0` when the flag is absent. -/
def cmd_init (a : Args) (energy_flag : Option ℚ) : Eff Unit :=
  init_helpers a (some (init_energy_value energy_flag))

/-- Embedding of `cmd_end` (lines 174-184): when a duration is given, set
the cycle-start helper to `datetime.now() - timedelta(seconds=d)` as an
integer epoch timestamp, then (in both cases) write the inactive state to
the status entity. -/
def cmd_end (env : Env) (a : Args) (duration_sec : Option Int) : Eff Unit :=
  Eff.bind
    (match duration_sec with
      | some d => call_service a "input_datetime" "set_datetime"
          (Payload.tstamp a.cycle_start_helper (env.toEpoch (env.now - d * 1000000)))
      | none => Eff.pure ()) fun _ =>
  set_by_domain a a.status_entity (PyVal.str a.inactive_state)

/-- Embedding of `cmd_split` (lines 192-206): the start is the parsed
`--start-iso` value when that flag is truthy (non-`None`, non-empty),
otherwise local midnight of today minus ten minutes; the start is sent to
the cycle-start helper as an integer epoch timestamp, then the active
state is written to the status entity and the energy value to the energy
write target. -/
def cmd_split (env : Env) (a : Args) (energy_wh : ℚ) (start_iso : Option String) : Eff Unit :=
  Eff.bind
    (match start_iso with
      | some s =>
          if s.isEmpty then Eff.pure (local_midnight env.now - ten_minutes_usec)
          else parse_start_iso env s
      | none => Eff.pure (local_midnight env.now - ten_minutes_usec)) fun start =>
  Eff.bind (call_service a "input_datetime" "set_datetime"
      (Payload.tstamp a.cycle_start_helper (env.toEpoch start))) fun _ =>
  Eff.bind (set_by_domain a a.status_entity (PyVal.str a.active_state)) fun _ =>
  set_by_domain a a.energy_write_entity (PyVal.float energy_wh)

/-- Embedding of `cmd_scenario` (lines 209-225): optionally run
`_init_helpers(args, 0)` first, compute the start (parsed `--start-iso`
when truthy, else `datetime.now() - timedelta(seconds=duration_sec)`,
where argparse defaults `duration_sec` to 1800), send it to the
cycle-start helper, write active then inactive to the status entity, and
write the energy value. -/
def cmd_scenario (env : Env) (a : Args) (energy_wh : ℚ) (duration_sec : Int)
    (start_iso : Option String) (do_init : Bool) : Eff Unit :=
  Eff.bind (if do_init then init_helpers a (some (PyVal.int 0)) else Eff.pure ()) fun _ =>
  Eff.bind
    (match start_iso with
      | some s =>
          if s.isEmpty then Eff.pure (env.now - duration_sec * 1000000)
          else parse_start_iso env s
      | none => Eff.pure (env.now - duration_sec * 1000000)) fun start =>
  Eff.bind (call_service a "input_datetime" "set_datetime"
      (Payload.tstamp a.cycle_start_helper (env.toEpoch start))) fun _ =>
  Eff.bind (set_by_domain a a.status_entity (PyVal.str a.active_state)) fun _ =>
  Eff.bind (set_by_domain a a.status_entity (PyVal.str a.inactive_state)) fun _ =>
  set_by_domain a a.energy_write_entity (PyVal.float energy_wh)

/-- The single HTTP call that `_set_by_domain` issues for a given entity
and value when the configuration is present, as a function of the entity
domain: `none` when the `input_number` branch raises `ValueError` on a
non-numeric string (in which case no call is issued).  `set_by_domain_eq`
proves that the trace semantics of `_set_by_domain` matches this. -/
def write_call (entity : String) (v : PyVal) : Option Call :=
  let d := domain_of entity
  if d = "input_number" then
    (py_float v).map fun q =>
      Call.mk "POST" "/api/services/input_number/set_value" (some (Payload.numValue entity q))
  else if d = "input_text" then
    some (Call.mk "POST" "/api/services/input_text/set_value"
      (some (Payload.strValue entity (py_str v))))
  else if d = "input_select" then
    some (Call.mk "POST" "/api/services/input_select/select_option"
      (some (Payload.optValue entity (py_str v))))
  else if d = "input_boolean" then
    some (Call.mk "POST"
      ("/api/services/input_boolean/" ++
        (if (py_str v).toLower = "on" || (py_str v).toLower = "true" || (py_str v).toLower = "1"
          then "turn_on" else "turn_off"))
      (some (Payload.entityOnly entity)))
  else
    some (Call.mk "POST" ("/api/states/" ++ entity) (some (Payload.stateOnly (py_str v))))

/-- A value that survives the `float()` conversion (in particular every
`int` and every `float`) always has its one dispatched call. -/
theorem write_call_isSome (entity : String) (v : PyVal)
    (hv : (py_float v).isSome = true) :
    (write_call entity v).isSome = true := by
  obtain ⟨q, hq⟩ := Option.isSome_iff_exists.mp hv
  unfold write_call
  by_cases h1 : domain_of entity = "input_number" <;>
    simp [h1, hq]
  by_cases h2 : domain_of entity = "input_text" <;> simp [h2]
  by_cases h3 : domain_of entity = "input_select" <;> simp [h3]
  by_cases h4 : domain_of entity = "input_boolean" <;> simp [h4]

/-- With the base url and token present, `_request` issues exactly its one
call and returns. -/
theorem request_eff_ok (a : Args) (h : cfg_present a = true) (m p : String)
    (pl : Option Payload) :
    request_eff a m p pl = ([Call.mk m p pl], Outcome.ok ()) := by
  rcases hb : a.base_url with _ | b
  · rw [cfg_present, hb] at h; simp [falsy] at h
  rcases ht : a.token with _ | t
  · rw [cfg_present, hb, ht] at h; simp [falsy] at h
  rw [cfg_present, hb, ht] at h
  simp only [falsy, Bool.and_eq_true, Bool.not_eq_true'] at h
  simp [request_eff, require_value, hb, ht, h.1, h.2, Eff.bind]

/-- `_call_service` with the configuration present: one POST to the
service path. -/
theorem call_service_ok (a : Args) (h : cfg_present a = true) (d s : String)
    (data : Payload) :
    call_service a d s data =
      ([Call.mk "POST" ("/api/services/" ++ d ++ "/" ++ s) (some data)], Outcome.ok ()) := by
  simp [call_service, request_eff_ok a h]

/-- The trace of `_set_by_domain` with the configuration present is
described by `write_call`: the one dispatched call on success, or a crash
with no call when `float()` raises. -/
theorem set_by_domain_eq (a : Args) (h : cfg_present a = true) (entity : String) (v : PyVal) :
    set_by_domain a entity v =
      match write_call entity v with
      | some c => ([c], Outcome.ok ())
      | none => ([], Outcome.crash ("could not convert string to float: " ++ py_str v)) := by
  unfold set_by_domain write_call
  by_cases h1 : domain_of entity = "input_number"
  · simp only [h1, if_pos rfl]
    cases hq : py_float v <;>
      simp [set_input_number, call_service_ok a h]
  · simp only [h1, if_neg h1]
    by_cases h2 : domain_of entity = "input_text"
    · simp [h2, set_input_text, call_service_ok a h]
    by_cases h3 : domain_of entity = "input_select"
    · simp [h2, h3, set_input_select, call_service_ok a h]
    by_cases h4 : domain_of entity = "input_boolean"
    · simp [h2, h3, h4, set_input_boolean, call_service_ok a h]
    · simp [h2, h3, h4, set_state, request_eff_ok a h]

/-- `_set_by_domain` when the dispatched call exists. -/
theorem set_by_domain_some (a : Args) (h : cfg_present a = true) (entity : String)
    (v : PyVal) (c : Call) (hc : write_call entity v = some c) :
    set_by_domain a entity v = ([c], Outcome.ok ()) := by
  rw [set_by_domain_eq a h entity v, hc]

/-- `_set_by_domain` when the numeric conversion fails: no call, crash. -/
theorem set_by_domain_none (a : Args) (h : cfg_present a = true) (entity : String)
    (v : PyVal) (hc : write_call entity v = none) :
    set_by_domain a entity v =
      ([], Outcome.crash ("could not convert string to float: " ++ py_str v)) := by
  rw [set_by_domain_eq a h entity v, hc]

/-- The five fixed baseline resets issued by `_init_helpers` before the
status write: lifetime and daily-active numeric helpers to 0, durations
text helper to `"[]"`, last-processed text helper to `""`, cycle-start
datetime helper to epoch timestamp 0. -/
def init_reset_calls (a : Args) : List Call :=
  [Call.mk "POST" "/api/services/input_number/set_value"
      (some (Payload.numValue a.lifetime_helper 0)),
   Call.mk "POST" "/api/services/input_number/set_value"
      (some (Payload.numValue a.daily_active_helper 0)),
   Call.mk "POST" "/api/services/input_text/set_value"
      (some (Payload.strValue a.durations_helper "[]")),
   Call.mk "POST" "/api/services/input_text/set_value"
      (some (Payload.strValue a.last_processed_helper "")),
   Call.mk "POST" "/api/services/input_datetime/set_datetime"
      (some (Payload.tstamp a.cycle_start_helper 0))]

/-- Trace of `_init_helpers` with no energy value: the five fixed resets
followed by the dispatched status write; the computation returns
normally. -/
theorem init_helpers_spec_none (a : Args) (h : cfg_present a = true)
    (hs : (write_call a.status_entity (PyVal.str a.inactive_state)).isSome = true) :
    init_helpers a none =
      (init_reset_calls a ++
        (write_call a.status_entity (PyVal.str a.inactive_state)).toList,
       Outcome.ok ()) := by
  obtain ⟨sc, hsc⟩ := Option.isSome_iff_exists.mp hs
  simp [init_helpers, init_reset_calls, set_input_number, set_input_text,
    call_service_ok a h, set_by_domain_some a h _ _ sc hsc, hsc, Eff.bind, Eff.pure]

/-- Full trace of `_init_helpers` with an energy value whose dispatched
write exists (every `int` or `float` value qualifies): the five fixed
resets, the dispatched status write, then the dispatched energy write;
the computation returns normally. -/
theorem init_helpers_spec_some (a : Args) (h : cfg_present a = true)
    (hs : (write_call a.status_entity (PyVal.str a.inactive_state)).isSome = true)
    (v : PyVal) (hv : (write_call a.energy_write_entity v).isSome = true) :
    init_helpers a (some v) =
      (init_reset_calls a ++
        (write_call a.status_entity (PyVal.str a.inactive_state)).toList ++
        (write_call a.energy_write_entity v).toList,
       Outcome.ok ()) := by
  obtain ⟨sc, hsc⟩ := Option.isSome_iff_exists.mp hs
  obtain ⟨ec, hec⟩ := Option.isSome_iff_exists.mp hv
  simp [init_helpers, init_reset_calls, set_input_number, set_input_text,
    call_service_ok a h, set_by_domain_some a h _ _ sc hsc, hsc,
    set_by_domain_some a h _ _ ec hec, hec, Eff.bind, Eff.pure]

/-- The configuration and entity naming used for concrete runs below: the
hardcoded `DEFAULTS` of the source with a present base url and token. -/
def test_args : Args :=
  { base_url := some "http://homeassistant.local:8123"
    token := some "token123"
    energy_sensor := "sensor.test_energy_yesterday"
    energy_write_entity := "sensor.test_energy_yesterday"
    status_entity := "input_select.test_status"
    lifetime_helper := "input_number.test_lifetime_energy"
    cycle_start_helper := "input_datetime.test_cycle_start"
    daily_active_helper := "input_number.test_daily_active_seconds"
    durations_helper := "input_text.test_cycle_durations"
    last_processed_helper := "input_text.test_last_processed_date"
    active_state := "running"
    inactive_state := "off" }

/-- A concrete environment: an invocation at 10:30:45 local time on some
day (microseconds on the local timeline), epoch conversion by
floor-division to seconds, and a `fromisoformat` that rejects every
string (as it does on `"not-a-date"`). -/
def test_env : Env :=
  { now := 1760227200000000 + 37845000000
    toEpoch := fun t => t.fdiv 1000000
    parseIso := fun _ => none }

/-- C8: the `init` subcommand resets every helper to the clean baseline in
one pass — the lifetime-energy and daily-active-seconds numeric helpers to
0, the durations text helper to `"[]"`, the last-processed-date text
helper to `""`, the cycle-start date-time helper to epoch timestamp 0
(`init_reset_calls`, in that order), then exactly one dispatched write of
the configured inactive value to the status entity — and returns
normally (the final calls are the energy write that `init` always
performs, see the C1 theorems). -/
theorem c8_init_resets_baseline (a : Args) (h : cfg_present a = true)
    (hs : (write_call a.status_entity (PyVal.str a.inactive_state)).isSome = true)
    (e : Option ℚ) :
    calls_of (cmd_init a e) =
      init_reset_calls a ++
        (write_call a.status_entity (PyVal.str a.inactive_state)).toList ++
        (write_call a.energy_write_entity (init_energy_value e)).toList ∧
    (write_call a.status_entity (PyVal.str a.inactive_state)).toList.length = 1 ∧
    outcome_of (cmd_init a e) = Outcome.ok () := by
  have hpf : (py_float (init_energy_value e)).isSome = true := by
    cases e <;> simp [init_energy_value, py_float]
  have hv := write_call_isSome a.energy_write_entity (init_energy_value e) hpf
  refine ⟨?_, ?_, ?_⟩
  · simp [cmd_init, calls_of, init_helpers_spec_some a h hs _ hv]
  · obtain ⟨sc, hsc⟩ := Option.isSome_iff_exists.mp hs
    simp [hsc]
  · simp [cmd_init, outcome_of, init_helpers_spec_some a h hs _ hv]

/-- Witness for `c8_init_resets_baseline` at the default configuration. -/
theorem c8_init_resets_baseline_witness :
    calls_of (cmd_init test_args none) =
      init_reset_calls test_args ++
        (write_call test_args.status_entity (PyVal.str test_args.inactive_state)).toList ++
        (write_call test_args.energy_write_entity
          (init_energy_value (none : Option ℚ))).toList ∧
    (write_call test_args.status_entity (PyVal.str test_args.inactive_state)).toList.length = 1 ∧
    outcome_of (cmd_init test_args none) = Outcome.ok () :=
  c8_init_resets_baseline test_args (by decide) (by decide) none

/-- C1 counterexample: with no energy value supplied, `init` does NOT
leave the energy write target untouched.  The argparse default for
`--energy-wh` is `0` (not `None`), so `cmd_init` always passes a
non-`None` value to `_init_helpers` and a seventh call is issued: a
direct state overwrite on the energy write target
(`sensor.test_energy_yesterday` in the default configuration).  Because
argparse applies `type=float` only to supplied strings, the default stays
the `int` `0` and the written state is `str(0) = "0"`. -/
theorem c1_counterexample :
    (calls_of (cmd_init test_args none)).length = 7 ∧
    (calls_of (cmd_init test_args none)).getLast? =
      some (Call.mk "POST" "/api/states/sensor.test_energy_yesterday"
        (some (Payload.stateOnly "0"))) := by decide

/-- C1 (amended): `init` always writes the energy write target after the
helper resets — with no energy value it issues exactly one dispatched
write of the argparse default, the `int` `0` (rendered `"0"` by `str` on
fallback domains); with `--energy-wh w` (e.g. `w = 750`) it issues
exactly one dispatched write of the `float` `w`. -/
theorem c1_init_energy_write (a : Args) (h : cfg_present a = true)
    (hs : (write_call a.status_entity (PyVal.str a.inactive_state)).isSome = true) :
    (calls_of (cmd_init a none) =
        calls_of (init_helpers a none) ++
          (write_call a.energy_write_entity (PyVal.int 0)).toList ∧
      (write_call a.energy_write_entity (PyVal.int 0)).toList.length = 1) ∧
    ∀ w : ℚ,
      calls_of (cmd_init a (some w)) =
        calls_of (init_helpers a none) ++
          (write_call a.energy_write_entity (PyVal.float w)).toList ∧
      (write_call a.energy_write_entity (PyVal.float w)).toList.length = 1 := by
  have hv0 := write_call_isSome a.energy_write_entity (PyVal.int 0) (by simp [py_float])
  refine ⟨⟨?_, ?_⟩, fun w => ⟨?_, ?_⟩⟩
  · simp [cmd_init, init_energy_value, calls_of,
      init_helpers_spec_some a h hs _ hv0, init_helpers_spec_none a h hs]
  · obtain ⟨c, hc⟩ := Option.isSome_iff_exists.mp hv0
    simp [hc]
  · have hvw := write_call_isSome a.energy_write_entity (PyVal.float w) (by simp [py_float])
    simp [cmd_init, init_energy_value, calls_of,
      init_helpers_spec_some a h hs _ hvw, init_helpers_spec_none a h hs]
  · have hvw := write_call_isSome a.energy_write_entity (PyVal.float w) (by simp [py_float])
    obtain ⟨c, hc⟩ := Option.isSome_iff_exists.mp hvw
    simp [hc]

/-- Witness for `c1_init_energy_write` at the default configuration. -/
theorem c1_init_energy_write_witness :
    (calls_of (cmd_init test_args none) =
        calls_of (init_helpers test_args none) ++
          (write_call test_args.energy_write_entity (PyVal.int 0)).toList ∧
      (write_call test_args.energy_write_entity (PyVal.int 0)).toList.length = 1) ∧
    ∀ w : ℚ,
      calls_of (cmd_init test_args (some w)) =
        calls_of (init_helpers test_args none) ++
          (write_call test_args.energy_write_entity (PyVal.float w)).toList ∧
      (write_call test_args.energy_write_entity (PyVal.float w)).toList.length = 1 :=
  c1_init_energy_write test_args (by decide) (by decide)

/-- C3 counterexample: the entity-write dispatch on an `input_number`
entity does not always produce a service call.  Writing the string value
`"off"` (precisely what the harness sends the status entity by default)
evaluates `float("off")` before any HTTP call; the `ValueError` aborts the
process with no service call at all. -/
theorem c3_counterexample :
    calls_of (set_by_domain test_args "input_number.test_lifetime_energy"
      (PyVal.str "off")) = [] ∧
    outcome_of (set_by_domain test_args "input_number.test_lifetime_energy"
      (PyVal.str "off")) =
      Outcome.crash "could not convert string to float: off" := by
  constructor <;> decide

/-- C3 (amended): for every entity id with domain prefix `input_number`,
writing a value `v` whose `float` conversion succeeds produces exactly one
service call to `input_number/set_value` carrying the converted number
(a non-convertible string instead raises before any call); in every case
no call other than the numeric-set service call is issued — in particular
never a direct state overwrite. -/
theorem c3_input_number_dispatch (a : Args) (h : cfg_present a = true)
    (entity : String) (hd : domain_of entity = "input_number") (v : PyVal) :
    (∀ q : ℚ, py_float v = some q →
      set_by_domain a entity v =
        ([Call.mk "POST" "/api/services/input_number/set_value"
            (some (Payload.numValue entity q))], Outcome.ok ())) ∧
    ∀ c ∈ calls_of (set_by_domain a entity v),
      c.path = "/api/services/input_number/set_value" := by
  constructor
  · intro q hq
    apply set_by_domain_some a h entity v
    unfold write_call
    simp [hd, hq]
  · intro c hc
    cases hq : py_float v with
    | none =>
      have h1 : write_call entity v = none := by
        unfold write_call; simp [hd, hq]
      rw [set_by_domain_none a h entity v h1] at hc
      simp [calls_of] at hc
    | some q =>
      have h1 : write_call entity v =
          some (Call.mk "POST" "/api/services/input_number/set_value"
            (some (Payload.numValue entity q))) := by
        unfold write_call; simp [hd, hq]
      rw [set_by_domain_some a h entity v _ h1] at hc
      simp [calls_of] at hc
      subst hc
      rfl

/-- Witness for `c3_input_number_dispatch`: writing `750` to the lifetime
helper. -/
theorem c3_input_number_dispatch_witness :
    (∀ q : ℚ, py_float (PyVal.float 750) = some q →
      set_by_domain test_args "input_number.test_lifetime_energy" (PyVal.float 750) =
        ([Call.mk "POST" "/api/services/input_number/set_value"
            (some (Payload.numValue "input_number.test_lifetime_energy" q))],
         Outcome.ok ())) ∧
    ∀ c ∈ calls_of (set_by_domain test_args "input_number.test_lifetime_energy"
        (PyVal.float 750)),
      c.path = "/api/services/input_number/set_value" :=
  c3_input_number_dispatch test_args (by decide) "input_number.test_lifetime_energy"
    (by decide) (PyVal.float 750)

/-- C4: for every entity id whose domain prefix is none of `input_number`,
`input_text`, `input_select`, `input_boolean`, writing any value `v`
produces exactly one direct state overwrite of `/api/states/<entity>`
whose payload is `state = str(v)`, and no service call (the trace is
exactly that one call). -/
theorem c4_fallback_state_write (a : Args) (h : cfg_present a = true) (entity : String)
    (hd1 : domain_of entity ≠ "input_number") (hd2 : domain_of entity ≠ "input_text")
    (hd3 : domain_of entity ≠ "input_select") (hd4 : domain_of entity ≠ "input_boolean")
    (v : PyVal) :
    set_by_domain a entity v =
      ([Call.mk "POST" ("/api/states/" ++ entity) (some (Payload.stateOnly (py_str v)))],
       Outcome.ok ()) := by
  apply set_by_domain_some a h
  unfold write_call
  simp [hd1, hd2, hd3, hd4]

/-- Witness for `c4_fallback_state_write`: writing `750` to the `sensor.`
domain energy target produces the single state overwrite with
`state = "750.0"`. -/
theorem c4_fallback_state_write_witness :
    set_by_domain test_args "sensor.test_energy_yesterday" (PyVal.float 750) =
      ([Call.mk "POST" ("/api/states/" ++ "sensor.test_energy_yesterday")
          (some (Payload.stateOnly (py_str (PyVal.float 750))))],
       Outcome.ok ()) :=
  c4_fallback_state_write test_args (by decide) "sensor.test_energy_yesterday"
    (by decide) (by decide) (by decide) (by decide) (PyVal.float 750)

/-- C5: `split` without `--start-iso` sends, as its first call, the
cycle-start helper exactly the integer epoch value of (local midnight of
the invocation day minus ten minutes) to the date-time-set service, then
writes active status and the energy value. -/
theorem c5_split_default_start (env : Env) (a : Args) (h : cfg_present a = true)
    (hs : (write_call a.status_entity (PyVal.str a.active_state)).isSome = true)
    (e : ℚ) :
    calls_of (cmd_split env a e none) =
      Call.mk "POST" "/api/services/input_datetime/set_datetime"
        (some (Payload.tstamp a.cycle_start_helper
          (env.toEpoch (local_midnight env.now - ten_minutes_usec))))
      :: (write_call a.status_entity (PyVal.str a.active_state)).toList
      ++ (write_call a.energy_write_entity (PyVal.float e)).toList := by
  obtain ⟨sc, hsc⟩ := Option.isSome_iff_exists.mp hs
  obtain ⟨ec, hec⟩ := Option.isSome_iff_exists.mp
    (write_call_isSome a.energy_write_entity (PyVal.float e) (by simp [py_float]))
  simp [cmd_split, calls_of, Eff.bind, Eff.pure, call_service_ok a h,
    set_by_domain_some a h _ _ sc hsc, set_by_domain_some a h _ _ ec hec, hsc, hec]

/-- Witness for `c5_split_default_start` at the default configuration and
the concrete clock of `test_env`. -/
theorem c5_split_default_start_witness :
    calls_of (cmd_split test_env test_args 900 none) =
      Call.mk "POST" "/api/services/input_datetime/set_datetime"
        (some (Payload.tstamp test_args.cycle_start_helper
          (test_env.toEpoch (local_midnight test_env.now - ten_minutes_usec))))
      :: (write_call test_args.status_entity (PyVal.str test_args.active_state)).toList
      ++ (write_call test_args.energy_write_entity (PyVal.float 900)).toList :=
  c5_split_default_start test_env test_args (by decide) (by decide) 900

/-- C6: `end --duration-sec d` first sets the cycle-start helper to
(invocation time minus `d` seconds) as an integer epoch timestamp and then
issues exactly the dispatched write of the configured inactive value to
the status entity; `end` with no duration issues no cycle-start write and
only the status write.  Both runs return normally. -/
theorem c6_end_duration (env : Env) (a : Args) (h : cfg_present a = true)
    (hs : (write_call a.status_entity (PyVal.str a.inactive_state)).isSome = true)
    (d : Int) :
    calls_of (cmd_end env a (some d)) =
      Call.mk "POST" "/api/services/input_datetime/set_datetime"
        (some (Payload.tstamp a.cycle_start_helper (env.toEpoch (env.now - d * 1000000))))
      :: (write_call a.status_entity (PyVal.str a.inactive_state)).toList ∧
    calls_of (cmd_end env a none) =
      (write_call a.status_entity (PyVal.str a.inactive_state)).toList ∧
    outcome_of (cmd_end env a (some d)) = Outcome.ok () ∧
    outcome_of (cmd_end env a none) = Outcome.ok () := by
  obtain ⟨sc, hsc⟩ := Option.isSome_iff_exists.mp hs
  refine ⟨?_, ?_, ?_, ?_⟩ <;>
    simp [cmd_end, calls_of, outcome_of, Eff.bind, Eff.pure, call_service_ok a h,
      set_by_domain_some a h _ _ sc hsc, hsc]

/-- Witness for `c6_end_duration` with `--duration-sec 3600` at the
default configuration. -/
theorem c6_end_duration_witness :
    calls_of (cmd_end test_env test_args (some 3600)) =
      Call.mk "POST" "/api/services/input_datetime/set_datetime"
        (some (Payload.tstamp test_args.cycle_start_helper
          (test_env.toEpoch (test_env.now - 3600 * 1000000))))
      :: (write_call test_args.status_entity (PyVal.str test_args.inactive_state)).toList ∧
    calls_of (cmd_end test_env test_args none) =
      (write_call test_args.status_entity (PyVal.str test_args.inactive_state)).toList ∧
    outcome_of (cmd_end test_env test_args (some 3600)) = Outcome.ok () ∧
    outcome_of (cmd_end test_env test_args none) = Outcome.ok () :=
  c6_end_duration test_env test_args (by decide) (by decide) 3600

/-- C2 counterexample: `scenario --init` with an invalid `--start-iso`
does NOT abort before any HTTP call — with the configuration present it
first issues the seven `_init_helpers` calls and only then fails parsing,
reporting the invalid value and exiting with code 1. -/
theorem c2_counterexample :
    (calls_of (cmd_scenario test_env test_args 900 1800 (some "not-a-date") true)).length = 7 ∧
    outcome_of (cmd_scenario test_env test_args 900 1800 (some "not-a-date") true) =
      Outcome.err "Invalid --start-iso value: not-a-date" ∧
    exit_code (cmd_scenario test_env test_args 900 1800 (some "not-a-date") true) = 1 := by
  refine ⟨by decide, by decide, by decide⟩

/-- C2 (amended): an unparseable non-empty `--start-iso` value makes
`split`, and `scenario` without `--init`, abort before any HTTP call with
a `RuntimeError` naming the value and exit code 1; `scenario --init`
first issues exactly the `_init_helpers` calls and then aborts with the
same error and exit code 1.  The empty string — also not parseable as
ISO-8601 (`fromisoformat("")` raises) — is never parsed at all: Python
falsiness makes `--start-iso ""` behave exactly as an absent flag, so the
commands proceed normally with their default start times. -/
theorem c2_invalid_start_iso (env : Env) (a : Args) (h : cfg_present a = true)
    (hs : (write_call a.status_entity (PyVal.str a.inactive_state)).isSome = true)
    (v : String) (hv : env.parseIso v = none) (hne : v.isEmpty = false)
    (e : ℚ) (d : Int) :
    (cmd_split env a e (some v) =
        ([], Outcome.err ("Invalid --start-iso value: " ++ v)) ∧
      exit_code (cmd_split env a e (some v)) = 1) ∧
    (cmd_scenario env a e d (some v) false =
        ([], Outcome.err ("Invalid --start-iso value: " ++ v)) ∧
      exit_code (cmd_scenario env a e d (some v) false) = 1) ∧
    (calls_of (cmd_scenario env a e d (some v) true) =
        calls_of (init_helpers a (some (PyVal.int 0))) ∧
      outcome_of (cmd_scenario env a e d (some v) true) =
        Outcome.err ("Invalid --start-iso value: " ++ v) ∧
      exit_code (cmd_scenario env a e d (some v) true) = 1) ∧
    cmd_split env a e (some "") = cmd_split env a e none ∧
    (∀ i : Bool, cmd_scenario env a e d (some "") i = cmd_scenario env a e d none i) := by
  have hv0 := write_call_isSome a.energy_write_entity (PyVal.int 0) (by simp [py_float])
  refine ⟨⟨?_, ?_⟩, ⟨?_, ?_⟩, ⟨?_, ?_, ?_⟩, rfl, fun i => rfl⟩ <;>
    simp [cmd_split, cmd_scenario, parse_start_iso, hv, hne, calls_of, outcome_of,
      exit_code, Eff.bind, Eff.pure, init_helpers_spec_some a h hs (PyVal.int 0) hv0]

/-- Witness for `c2_invalid_start_iso` at the default configuration with
the literal invalid value `"not-a-date"` (the empty-string conjuncts are
taken at `--init` absent). -/
theorem c2_invalid_start_iso_witness :
    ((cmd_split test_env test_args 900 (some "not-a-date") =
        ([], Outcome.err ("Invalid --start-iso value: " ++ "not-a-date")) ∧
      exit_code (cmd_split test_env test_args 900 (some "not-a-date")) = 1) ∧
    (cmd_scenario test_env test_args 900 1800 (some "not-a-date") false =
        ([], Outcome.err ("Invalid --start-iso value: " ++ "not-a-date")) ∧
      exit_code (cmd_scenario test_env test_args 900 1800 (some "not-a-date") false) = 1) ∧
    (calls_of (cmd_scenario test_env test_args 900 1800 (some "not-a-date") true) =
        calls_of (init_helpers test_args (some (PyVal.int 0))) ∧
      outcome_of (cmd_scenario test_env test_args 900 1800 (some "not-a-date") true) =
        Outcome.err ("Invalid --start-iso value: " ++ "not-a-date") ∧
      exit_code (cmd_scenario test_env test_args 900 1800 (some "not-a-date") true) = 1)) ∧
    cmd_split test_env test_args 900 (some "") = cmd_split test_env test_args 900 none ∧
    cmd_scenario test_env test_args 900 1800 (some "") false =
      cmd_scenario test_env test_args 900 1800 none false :=
  have main := c2_invalid_start_iso test_env test_args (by decide) (by decide)
    "not-a-date" rfl (by decide) 900 1800
  ⟨⟨main.1, main.2.1, main.2.2.1⟩, main.2.2.2.1, main.2.2.2.2 false⟩

/-- C9: the URL of every issued request is the base URL with all trailing
slash characters stripped, concatenated with the path; in particular a
base URL given with a trailing slash yields the same request URL as the
same base URL without it. -/
theorem c9_request_url (base path : String) :
    request_url base path = rstrip_slash base ++ path ∧
    request_url (base ++ "/") path = request_url base path := by
  refine ⟨rfl, ?_⟩
  unfold request_url
  have hdata : (base ++ "/").data = base.data ++ ['/'] := by
    cases base
    rfl
  have : rstrip_slash (base ++ "/") = rstrip_slash base := by
    unfold rstrip_slash
    rw [hdata]
    simp [List.dropWhile]
  rw [this]

/-- C10: a successful response with an empty body makes `_request` return
`None` without invoking the JSON decoder, and the decoder is invoked
exactly when the body is non-empty (so an empty 2xx response can never
raise a JSON parse error). -/
theorem c10_empty_body {J : Type} (decode : String → Except String J)
    (method path body : String) :
    request_outcome decode method path (HttpResp.success "") = Except.ok none ∧
    (body.isEmpty = false →
      request_outcome decode method path (HttpResp.success body) =
        (decode body).map Option.some) := by
  constructor
  · rfl
  · intro hb
    simp [request_outcome, hb]

/-- Witness for `c10_empty_body` with a concrete decoder and body. -/
theorem c10_empty_body_witness :
    request_outcome (fun s => Except.ok s) "GET" "/api/states/sensor.x"
      (HttpResp.success "") = Except.ok none ∧
    request_outcome (fun s => Except.ok s) "GET" "/api/states/sensor.x"
      (HttpResp.success "body") =
      ((fun s => (Except.ok s : Except String String)) "body").map Option.some :=
  ⟨(c10_empty_body (fun s => Except.ok s) "GET" "/api/states/sensor.x" "body").1,
   (c10_empty_body (fun s => Except.ok s) "GET" "/api/states/sensor.x" "body").2 (by decide)⟩

end HaHarness
